import Mathlib

/-!
Verification of the connection-lifecycle and request-gateway subsystem of the
KotobaID backend (src/config/vertexai.js, src/middleware/vertexaiMiddleware.js,
src/middleware/errorHandler.js), shallowly embedded in Lean 4.

Conventions of the embedding:
- JavaScript exceptions are modelled with `Except String`: a thrown `Error` is
  `Except.error msg` carrying the error message.
- The mutable fields of the `VertexAIConfig` singleton become an explicit
  `ConfigState` record threaded through each operation.
- Filesystem and network effects (`fs.existsSync`, `path.resolve`, the remote
  `generateContent` call) are parameters bundled in `ProcessEnv`, so a run of
  the code is a pure function of that environment.
- The word `initialize` cannot be used as a Lean identifier here, so the
  embedding of `VertexAIConfig.initialize` is named `initVertexAI`; all other
  names follow the source.
-/

/-- Opaque handle standing for the object built by `new VertexAI(...)`
(src/config/vertexai.js line 39): the code only records which project and
location it was constructed with. -/
structure VertexAIClient where
  project : String
  location : String
deriving DecidableEq, Repr

/-- Handle standing for the object returned by
`vertexAI.preview.getGenerativeModel(...)` (src/config/vertexai.js lines 80-86). -/
structure GenerativeModel where
  client : VertexAIClient
  model : String
  maxOutputTokens : Nat
  temperature : String
deriving DecidableEq, Repr

/-- The mutable fields of the `VertexAIConfig` singleton
(src/config/vertexai.js lines 6-16). `initError` stores the message of the
last initialization error (`this.initError`), `vertexAI` the client handle. -/
structure ConfigState where
  projectId : String
  location : String
  model : String
  maxTokens : Nat
  temperature : String
  vertexAI : Option VertexAIClient
  isInitialized : Bool
  initError : Option String
deriving DecidableEq, Repr

/-- The process environment and the external effects the code consumes:
environment variables read by the constructor and by `initialize()`,
`path.resolve`, `fs.existsSync`, and the remote `generateContent` call
(an `Except.error` result models a rejected remote call). -/
structure ProcessEnv where
  googleCloudProjectId : Option String
  googleCloudLocation : Option String
  vertexAiModel : Option String
  vertexAiMaxTokens : Option Nat
  vertexAiTemperature : Option String
  googleApplicationCredentials : Option String
  resolve : String → String
  fileExists : String → Bool
  generate : GenerativeModel → String → Except String String

/-- The `VertexAIConfig` constructor (src/config/vertexai.js lines 6-16):
each field falls back to its default when the environment variable is absent
(or, for the numeric fields, parses to a falsy value). The constructor never
throws: it is a total function of the environment. -/
def mkVertexAIConfig (env : ProcessEnv) : ConfigState :=
  { projectId := env.googleCloudProjectId.getD "dark-pipe-465302-g3"
    location := env.googleCloudLocation.getD "us-central1"
    model := env.vertexAiModel.getD "gemini-pro"
    maxTokens := match env.vertexAiMaxTokens with
      | some n => if n = 0 then 1000 else n
      | none => 1000
    temperature := env.vertexAiTemperature.getD "0.7"
    vertexAI := none
    isInitialized := false
    initError := none }

/-- Embedding of `VertexAIConfig.getModel` (src/config/vertexai.js lines 75-87): throws
when `isInitialized` is false; otherwise builds a generative-model handle from
the stored client. Reading `preview` off a null `vertexAI` would itself throw
a TypeError, modelled as an error result. -/
def getModel (s : ConfigState) : Except String GenerativeModel :=
  if s.isInitialized then
    match s.vertexAI with
    | some c =>
        Except.ok { client := c, model := s.model,
                    maxOutputTokens := s.maxTokens, temperature := s.temperature }
    | none => Except.error "Cannot read properties of null (reading preview)"
  else
    Except.error "Vertex AI not initialized. Call initialize() first."

/-- The test prompt sent by `testConnection` (src/config/vertexai.js line 61). -/
def testPrompt : String := "Say \"Hello from Vertex AI Gemini!\" in one sentence."

/-- Embedding of `VertexAIConfig.testConnection` (src/config/vertexai.js lines 58-73):
gets a model handle, issues the test prompt, and wraps any failure in a
message starting with `Vertex AI connection test failed: `. -/
def testConnection (env : ProcessEnv) (s : ConfigState) : Except String String :=
  match getModel s with
  | Except.error m => Except.error ("Vertex AI connection test failed: " ++ m)
  | Except.ok mdl =>
      match env.generate mdl testPrompt with
      | Except.ok text => Except.ok text
      | Except.error m => Except.error ("Vertex AI connection test failed: " ++ m)

/-- Result of one `initialize()` call: the thrown/returned outcome and the
state of the singleton afterwards. -/
structure InitResult where
  result : Except String Unit
  state : ConfigState
deriving Repr

/-- Embedding of `VertexAIConfig.initialize` (src/config/vertexai.js lines 18-56), named
`initVertexAI` in this development. Steps: read
`GOOGLE_APPLICATION_CREDENTIALS` (a missing or empty value is falsy and
throws), resolve the path and check the file exists, store a freshly
constructed client in `this.vertexAI`, await `testConnection`, and only then
set `isInitialized`. The catch block records the error message in
`initError` and rethrows; note that the success branch does not reset
`initError`. -/
def initVertexAI (env : ProcessEnv) (s : ConfigState) : InitResult :=
  match env.googleApplicationCredentials with
  | none =>
      let msg := "GOOGLE_APPLICATION_CREDENTIALS environment variable not set"
      { result := Except.error msg, state := { s with initError := some msg } }
  | some p =>
      if p = "" then
        let msg := "GOOGLE_APPLICATION_CREDENTIALS environment variable not set"
        { result := Except.error msg, state := { s with initError := some msg } }
      else
        let fullPath := env.resolve p
        if env.fileExists fullPath then
          let s1 := { s with vertexAI := some { project := s.projectId, location := s.location } }
          match testConnection env s1 with
          | Except.ok _ =>
              { result := Except.ok (), state := { s1 with isInitialized := true } }
          | Except.error m =>
              { result := Except.error m, state := { s1 with initError := some m } }
        else
          let msg := "Service account file not found: " ++ fullPath
          { result := Except.error msg, state := { s with initError := some msg } }

/-- The configuration view inside a status snapshot
(src/config/vertexai.js lines 93-99). -/
structure StatusConfigView where
  projectId : String
  location : String
  model : String
  maxTokens : Nat
  temperature : String
deriving DecidableEq, Repr

/-- Return value of `getStatus()` (src/config/vertexai.js lines 89-101). -/
structure StatusSnapshot where
  initialized : Bool
  error : Option String
  config : StatusConfigView
deriving DecidableEq, Repr

/-- Embedding of `VertexAIConfig.getStatus` (src/config/vertexai.js lines 89-101): a pure
read of the singleton state; `this.initError?.message || null` maps an absent
error, and an empty (falsy) message, to null. It performs no mutation and
cannot throw. -/
def getStatus (s : ConfigState) : StatusSnapshot :=
  { initialized := s.isInitialized
    error := match s.initError with
      | some m => if m = "" then none else some m
      | none => none
    config := { projectId := s.projectId, location := s.location,
                model := s.model, maxTokens := s.maxTokens,
                temperature := s.temperature } }

/-- Return value of `checkPermissions()` (src/config/vertexai.js lines 104-122). -/
structure PermissionsResult where
  hasPermissions : Bool
  error : Option String
  suggestions : List String
deriving DecidableEq, Repr

/-- The fixed remediation list returned by `checkPermissions` on any caught
error (src/config/vertexai.js lines 114-119). -/
def permissionSuggestions : List String :=
  ["Ensure service account has \"Vertex AI User\" role",
   "Ensure service account has \"AI Platform Developer\" role",
   "Check if Vertex AI API is enabled in your project",
   "Verify the service account key file is valid"]

/-- Embedding of `VertexAIConfig.checkPermissions` (src/config/vertexai.js lines 104-122):
the whole body sits in a try/catch whose catch returns a value, so the
function never throws — every outcome is `Except.ok`. The `Except` layer is
kept to make the absence of a thrown error part of the statement. -/
def checkPermissions (env : ProcessEnv) (s : ConfigState) :
    Except String PermissionsResult :=
  match getModel s with
  | Except.error m =>
      Except.ok { hasPermissions := false, error := some m,
                  suggestions := permissionSuggestions }
  | Except.ok mdl =>
      match env.generate mdl "Test permissions" with
      | Except.ok _ =>
          Except.ok { hasPermissions := true, error := none, suggestions := [] }
      | Except.error m =>
          Except.ok { hasPermissions := false, error := some m,
                      suggestions := permissionSuggestions }

/-- Outcome of one middleware invocation: either control passes to the next
handler (`next()`), or a JSON error response with an HTTP status is sent. -/
inductive MiddlewareOutcome where
  | next
  | errorResponse (status : Nat) (error : String) (details : String)
      (suggestions : List String) (statusSnap : StatusSnapshot)
deriving DecidableEq, Repr

/-- Result of one `ensureVertexAI` middleware call: the outcome, the singleton
state afterwards, and how many initialization handshakes (entries into the
`initialize()` body: credential validation, client construction, test call)
the call performed. -/
structure EnsureResult where
  outcome : MiddlewareOutcome
  state : ConfigState
  handshakes : Nat
deriving Repr

/-- The fixed suggestion list in the 503 response of `ensureVertexAI`
(src/middleware/vertexaiMiddleware.js lines 18-23). -/
def ensureSuggestions : List String :=
  ["Check if service account file exists",
   "Verify Google Cloud project ID is correct",
   "Ensure Vertex AI API is enabled",
   "Check service account permissions"]

/-- Embedding of `ensureVertexAI` (src/middleware/vertexaiMiddleware.js lines 4-27), run to
completion with no interleaving: when `isInitialized` is set it calls `next()`
directly (no handshake); otherwise it awaits `initialize()`, passing control on
success and answering 503 with the error details, the fixed suggestions and a
fresh status snapshot on failure. -/
def ensureVertexAI (env : ProcessEnv) (s : ConfigState) : EnsureResult :=
  if s.isInitialized then
    { outcome := MiddlewareOutcome.next, state := s, handshakes := 0 }
  else
    let r := initVertexAI env s
    match r.result with
    | Except.ok _ => { outcome := MiddlewareOutcome.next, state := r.state, handshakes := 1 }
    | Except.error m =>
        { outcome := MiddlewareOutcome.errorResponse 503 "AI service unavailable" m
            ensureSuggestions (getStatus r.state),
          state := r.state, handshakes := 1 }

/-- Embedding of `addVertexAIModel` (src/middleware/vertexaiMiddleware.js lines 30-42):
attaches the result of `getModel()` to the request or answers 503. -/
def addVertexAIModel (s : ConfigState) : MiddlewareOutcome :=
  match getModel s with
  | Except.ok _ => MiddlewareOutcome.next
  | Except.error m => MiddlewareOutcome.errorResponse 503 "AI model unavailable" m [] (getStatus s)

/-!
## Interleaving semantics for concurrent `ensureVertexAI` calls

Node.js runs the middleware single-threaded: each `ensureVertexAI` call
executes atomically between `await` points. The only suspension point on the
initialization path is `await this.testConnection()` inside `initialize()`
(the synchronous prefix of the call — the `isInitialized` check, credential
validation, client construction, and the synchronous body of `testConnection`
up to its remote call — runs without interleaving; the caller then suspends
and later resumes with the outcome of the test). A caller is therefore a small
program counter, and a run is a fold of caller steps over a schedule.
-/

/-- Program counter of one in-flight `ensureVertexAI` caller. In
`waitTest pending`, the caller has run the synchronous prefix of
`initialize()` (through the synchronous start of `testConnection`, whose
outcome `pending` is already determined) and is suspended at the `await`. -/
inductive CallerPC where
  | start
  | waitTest (pending : Except String String)
  | finished (outcome : MiddlewareOutcome)
deriving Repr

/-- A system: the shared singleton state, the program counter of each caller, and
the total number of initialization handshakes started so far. -/
structure Sys where
  cfg : ConfigState
  callers : List CallerPC
  handshakes : Nat
deriving Repr

/-- Replace element `i` of a list. -/
def setAt (l : List CallerPC) (i : Nat) (c : CallerPC) : List CallerPC :=
  l.set i c

/-- One scheduler step: caller `i` runs from its current suspension point to
its next one (or to completion), mutating the shared singleton exactly as the
source does. At `start`, an initialized flag means `next()` at once; otherwise
the caller enters `initialize()` (one handshake): a failed credential check
records `initError` and yields the 503 response, and a passed one stores the
client handle, starts `testConnection` against the state as it is at that
moment, and suspends. At `waitTest`, a resolved test sets `isInitialized` and
calls `next()`; a rejected one records `initError` and yields the 503. -/
def step (env : ProcessEnv) (sys : Sys) (i : Nat) : Sys :=
  match sys.callers.get? i with
  | none => sys
  | some pc =>
    match pc with
    | CallerPC.finished _ => sys
    | CallerPC.start =>
        if sys.cfg.isInitialized then
          { sys with callers := setAt sys.callers i (CallerPC.finished MiddlewareOutcome.next) }
        else
          match env.googleApplicationCredentials with
          | none =>
              let msg := "GOOGLE_APPLICATION_CREDENTIALS environment variable not set"
              let cfg1 := { sys.cfg with initError := some msg }
              { cfg := cfg1,
                callers := setAt sys.callers i (CallerPC.finished
                  (MiddlewareOutcome.errorResponse 503 "AI service unavailable" msg
                    ensureSuggestions (getStatus cfg1))),
                handshakes := sys.handshakes + 1 }
          | some p =>
              if p = "" then
                let msg := "GOOGLE_APPLICATION_CREDENTIALS environment variable not set"
                let cfg1 := { sys.cfg with initError := some msg }
                { cfg := cfg1,
                  callers := setAt sys.callers i (CallerPC.finished
                    (MiddlewareOutcome.errorResponse 503 "AI service unavailable" msg
                      ensureSuggestions (getStatus cfg1))),
                  handshakes := sys.handshakes + 1 }
              else
                let fullPath := env.resolve p
                if env.fileExists fullPath then
                  let cfg1 := { sys.cfg with
                    vertexAI := some { project := sys.cfg.projectId, location := sys.cfg.location } }
                  { cfg := cfg1,
                    callers := setAt sys.callers i (CallerPC.waitTest (testConnection env cfg1)),
                    handshakes := sys.handshakes + 1 }
                else
                  let msg := "Service account file not found: " ++ fullPath
                  let cfg1 := { sys.cfg with initError := some msg }
                  { cfg := cfg1,
                    callers := setAt sys.callers i (CallerPC.finished
                      (MiddlewareOutcome.errorResponse 503 "AI service unavailable" msg
                        ensureSuggestions (getStatus cfg1))),
                    handshakes := sys.handshakes + 1 }
    | CallerPC.waitTest pending =>
        match pending with
        | Except.ok _ =>
            { sys with
              cfg := { sys.cfg with isInitialized := true },
              callers := setAt sys.callers i (CallerPC.finished MiddlewareOutcome.next) }
        | Except.error m =>
            let cfg1 := { sys.cfg with initError := some m }
            { sys with
              cfg := cfg1,
              callers := setAt sys.callers i (CallerPC.finished
                (MiddlewareOutcome.errorResponse 503 "AI service unavailable" m
                  ensureSuggestions (getStatus cfg1))) }

/-- Run a schedule: each entry names the caller that executes its next step. -/
def run (env : ProcessEnv) (sys : Sys) (schedule : List Nat) : Sys :=
  schedule.foldl (step env) sys

/-- A system of `n` fresh concurrent `ensureVertexAI` callers over the
just-constructed singleton. -/
def freshSys (env : ProcessEnv) (n : Nat) : Sys :=
  { cfg := mkVertexAIConfig env, callers := List.replicate n CallerPC.start, handshakes := 0 }

/-!
## Boundary error handler (src/middleware/errorHandler.js)
-/

/-- An incoming JavaScript `Error` object as the handler inspects it:
`name`, `kind` (set by Mongoose cast errors) and `message` may each be
absent/undefined. -/
structure JsError where
  name : Option String
  kind : Option String
  message : Option String
deriving DecidableEq, Repr

/-- Prefix test on character lists (structural, so concrete instances reduce
in the kernel). -/
def isPrefixOfChars : List Char → List Char → Bool
  | [], _ => true
  | _ :: _, [] => false
  | a :: as, b :: bs => a = b && isPrefixOfChars as bs

/-- Occurrence test: does `pat` occur as a contiguous run inside the list? -/
def hasSubChars (pat : List Char) : List Char → Bool
  | [] => isPrefixOfChars pat []
  | b :: bs => isPrefixOfChars pat (b :: bs) || hasSubChars pat bs

/-- Substring test matching `s.includes(pat)`: the pattern occurs contiguously
inside `s`. -/
def includesSub (s pat : String) : Bool :=
  hasSubChars pat.data s.data

/-- The truthiness guard `err.message && err.message.includes(pat)`:
an undefined or empty message is falsy. -/
def messageIncludes (m : Option String) (pat : String) : Bool :=
  match m with
  | none => false
  | some s => ¬ s = "" && includesSub s pat

/-- The one JSON failure response produced by the handler: its HTTP status
and the `error` field of the body (the `success` field of the body is the constant
`false` and is not modelled separately). -/
structure ErrorResponse where
  status : Nat
  error : Option String
deriving DecidableEq, Repr

/-- Embedding of `errorHandler` (src/middleware/errorHandler.js lines 9-37): starts from
the current status of the response (200 is replaced by 500), then applies three
reclassifications in source order — Mongoose ObjectId cast errors to 404,
messages containing `Vertex AI` to 503, and messages containing
`Too many requests` to 429 — each overwriting the previous one, and sends
exactly one JSON response with the final status and message. Total: every
error object and prior status yield exactly one response. -/
def errorHandler (err : JsError) (resStatusCode : Nat) : ErrorResponse :=
  let sc0 : Nat := if resStatusCode = 200 then 500 else resStatusCode
  let msg0 : Option String := err.message
  let r1 : ErrorResponse :=
    if err.name = some "CastError" ∧ err.kind = some "ObjectId" then
      { status := 404, error := some "Resource not found" }
    else
      { status := sc0, error := msg0 }
  let r2 : ErrorResponse :=
    if messageIncludes err.message "Vertex AI" then
      { status := 503, error := some "AI service temporarily unavailable" }
    else r1
  if messageIncludes err.message "Too many requests" then
    { status := 429, error := some "Too many requests, please try again later" }
  else r2

/-!
## Request gateway (routes/vertexai.js)

`server.js` mounts `./routes/vertexai`, but that file is not part of the
sources available here; only its callers (server.js), the middleware it
composes with, and the endpoint documentation of the README are. Its `invoke`
behaviour is therefore modelled from the spec.
-/

/-- The templated operations the gateway serves (README: translate,
explain-kanji, explain-grammar, chat, generate-examples, test). -/
inductive Operation where
  | translate
  | explainKanji
  | explainGrammar
  | chat
  | generateExamples
  | rawTest
deriving DecidableEq, Repr

/-- An inbound operation request: the operation name and the parsed named
string fields of the body. -/
structure OperationRequest where
  op : Operation
  fields : List (String × String)
deriving DecidableEq, Repr

/-- Look up a named field of the request body. -/
def getField (req : OperationRequest) (name : String) : Option String :=
  (req.fields.find? (fun kv => kv.fst = name)).map (fun kv => kv.snd)

/-- Modelled from the spec: the required fields of each operation
(spec section 4.4 step 1 with the request shapes of section 8 and the README:
translate needs `text` and `targetLanguage`, explain-kanji needs `kanji`,
explain-grammar needs `grammar`, chat needs `message`, generate-examples
needs `word`; the raw test call has no required field). -/
def requiredFields : Operation → List String
  | Operation.translate => ["text", "targetLanguage"]
  | Operation.explainKanji => ["kanji"]
  | Operation.explainGrammar => ["grammar"]
  | Operation.chat => ["message"]
  | Operation.generateExamples => ["word"]
  | Operation.rawTest => []

/-- A request is invalid when some required field is absent or empty
(spec section 8: an empty string is rejected). -/
def missingRequired (req : OperationRequest) : Bool :=
  (requiredFields req.op).any (fun f => (getField req f).getD "" = "")

/-- Modelled from the spec: a deterministic prompt composition from the
fields of the request (spec section 4.4 step 3 — any well-formed composition
satisfies the contract). -/
def promptFor (req : OperationRequest) : String :=
  String.intercalate " " (req.fields.map (fun kv => kv.snd))

/-- Outcome of one gateway `invoke()` call. -/
inductive InvokeOutcome where
  | success (text : String)
  | validationFailure
  | serviceUnavailable (details : String)
  | upstreamFailure (details : String)
deriving DecidableEq, Repr

/-- Result of one `invoke()` call: outcome, singleton state afterwards, and
the number of initialization handshakes the call performed. -/
structure InvokeResult where
  outcome : InvokeOutcome
  state : ConfigState
  handshakes : Nat
deriving Repr

/-- Modelled from the spec: `RequestGateway.invoke` (routes/vertexai.js,
absent from the available sources). Spec section 4.4: (1) validate the
required fields of the request first, failing `Validation` with no further work;
(2) run the connection gate — the real `ensureVertexAI` middleware embedded
above; (3-4) obtain the model handle (`addVertexAIModel`) and issue the
remote call; (5) return the trimmed text on success; (6) classify a
remote-call failure as upstream. -/
def invoke (env : ProcessEnv) (s : ConfigState) (req : OperationRequest) : InvokeResult :=
  if missingRequired req then
    { outcome := InvokeOutcome.validationFailure, state := s, handshakes := 0 }
  else
    let r := ensureVertexAI env s
    match r.outcome with
    | MiddlewareOutcome.next =>
        match getModel r.state with
        | Except.error m =>
            { outcome := InvokeOutcome.serviceUnavailable m, state := r.state,
              handshakes := r.handshakes }
        | Except.ok mdl =>
            match env.generate mdl (promptFor req) with
            | Except.ok t =>
                { outcome := InvokeOutcome.success t.trim, state := r.state,
                  handshakes := r.handshakes }
            | Except.error m =>
                { outcome := InvokeOutcome.upstreamFailure m, state := r.state,
                  handshakes := r.handshakes }
    | MiddlewareOutcome.errorResponse _ _ d _ _ =>
        { outcome := InvokeOutcome.serviceUnavailable d, state := r.state,
          handshakes := r.handshakes }

/-!
## Concrete environments used by witnesses and counterexamples
-/

/-- A fully healthy environment: credentials variable set, the credentials
file present, and every remote call succeeding. -/
def envGood : ProcessEnv :=
  { googleCloudProjectId := none
    googleCloudLocation := none
    vertexAiModel := none
    vertexAiMaxTokens := none
    vertexAiTemperature := none
    googleApplicationCredentials := some "service-account.json"
    resolve := fun p => "/app/" ++ p
    fileExists := fun _ => true
    generate := fun _ _ => Except.ok "Hello from Vertex AI Gemini!" }

/-- Environment `envGood` with the credentials file absent from the filesystem. -/
def envMissingFile : ProcessEnv :=
  { envGood with fileExists := fun _ => false }

/-- The singleton state after one failed initialization attempt against
`envMissingFile`: not initialized, with the missing-file error recorded. -/
def failedState : ConfigState :=
  (initVertexAI envMissingFile (mkVertexAIConfig envMissingFile)).state

/-- A state of the Ready shape: initialized flag set and a handle stored.
No execution of the embedded code reaches this shape (see the C3 and C6
theorems); it serves as the input for hypotheses about Ready states. -/
def readyState : ConfigState :=
  { mkVertexAIConfig envGood with
      isInitialized := true
      vertexAI := some { project := "dark-pipe-465302-g3", location := "us-central1" } }

/-- A Ready-shaped state still carrying a stale recorded error. -/
def staleReadyState : ConfigState :=
  { readyState with initError := some "stale failure" }

/-- The spec section 8 scenario request: explain-kanji with an empty `kanji`. -/
def emptyKanjiRequest : OperationRequest :=
  { op := Operation.explainKanji, fields := [("kanji", "")] }

/-- An error whose message contains both the `Vertex AI` and the
`Too many requests` substrings. -/
def bothSubstringsError : JsError :=
  { name := none, kind := none, message := some "Vertex AI quota: Too many requests" }

/-- One direction of the claim C2 invariant: a set initialized flag implies a
stored client handle. -/
abbrev handleInv (s : ConfigState) : Prop :=
  s.isInitialized = true → s.vertexAI.isSome = true

/-- The initialized-implies-handle invariant is preserved by one
`initialize()` call: every branch either leaves both fields unchanged or
stores a handle. -/
theorem handleInv_initVertexAI (env : ProcessEnv) (s : ConfigState)
    (hs : handleInv s) : handleInv (initVertexAI env s).state := by
  unfold initVertexAI
  cases hc : env.googleApplicationCredentials with
  | none => simpa using hs
  | some p =>
    by_cases hp : p = ""
    · simpa [hp] using hs
    · by_cases hex : env.fileExists (env.resolve p) = true
      · cases htc : testConnection env
            { s with vertexAI := some { project := s.projectId, location := s.location } } with
        | ok t => simp [hp, hex, htc, handleInv]
        | error m => simp [hp, hex, htc, handleInv]
      · simpa [hp, hex] using hs

/-- The initialized-implies-handle invariant is preserved by one
`ensureVertexAI` middleware call. -/
theorem handleInv_ensureVertexAI (env : ProcessEnv) (s : ConfigState)
    (hs : handleInv s) : handleInv (ensureVertexAI env s).state := by
  unfold ensureVertexAI
  by_cases hinit : s.isInitialized = true
  · simpa [hinit] using hs
  · have h := handleInv_initVertexAI env s hs
    cases hr : (initVertexAI env s).result with
    | ok t => simpa [hinit, hr] using h
    | error m => simpa [hinit, hr] using h

/-!
## Claim theorems
-/

/-- Claim C2, counterexample: against a healthy environment the first
initialization attempt fails (in the connection-test phase) yet leaves the
client handle stored while the state is not Ready — refuting both the
if-and-only-if and the handle-absent-after-failure parts of the claim. -/
theorem c2_handle_iff_ready_counterexample :
    (initVertexAI envGood (mkVertexAIConfig envGood)).result
        = Except.error
            "Vertex AI connection test failed: Vertex AI not initialized. Call initialize() first."
      ∧ (initVertexAI envGood (mkVertexAIConfig envGood)).state.vertexAI
        = some { project := "dark-pipe-465302-g3", location := "us-central1" }
      ∧ (initVertexAI envGood (mkVertexAIConfig envGood)).state.isInitialized = false :=
  ⟨rfl, rfl, rfl⟩

/-- Claim C2, amended: only one direction of the invariant holds — a set
initialized flag implies a stored handle, established at the initial state
and preserved by `initialize()` and by the `ensureVertexAI` middleware;
the converse fails because a connection-test failure leaves the handle
stored in a non-Ready state. -/
theorem c2_handle_iff_ready_amended (env : ProcessEnv) :
    handleInv (mkVertexAIConfig env)
      ∧ (∀ s, handleInv s → handleInv (initVertexAI env s).state)
      ∧ (∀ s, handleInv s → handleInv (ensureVertexAI env s).state) := by
  refine ⟨?_, ?_, ?_⟩
  · intro h
    simp [mkVertexAIConfig] at h
  · exact fun s hs => handleInv_initVertexAI env s hs
  · exact fun s hs => handleInv_ensureVertexAI env s hs

/-- Witness for the amended claim C2 at a concrete input: the invariant
holds after one failed initialization attempt from the initial state. -/
theorem c2_handle_iff_ready_witness :
    handleInv (initVertexAI envGood (mkVertexAIConfig envGood)).state :=
  (c2_handle_iff_ready_amended envGood).2.1 (mkVertexAIConfig envGood) (by decide)

/-- Claim C3, code bug: `initialize()` calls `testConnection`, which calls
`getModel`, which throws whenever `isInitialized` is false — and
`isInitialized` is only set after `testConnection` returns. So from the real
initial state the success postcondition is unreachable even in a perfectly
healthy environment (first two conjuncts; the third shows the remote call
itself would succeed). Moreover the success branch never clears `initError`:
forcing it from a Ready-shaped state with a stale error leaves that error
recorded (last two conjuncts), contradicting the cleared-to-null claim. -/
theorem c3_success_clears_error_code_bug :
    (initVertexAI envGood (mkVertexAIConfig envGood)).result
        = Except.error
            "Vertex AI connection test failed: Vertex AI not initialized. Call initialize() first."
      ∧ (initVertexAI envGood (mkVertexAIConfig envGood)).state.isInitialized = false
      ∧ envGood.generate
          { client := { project := "dark-pipe-465302-g3", location := "us-central1" },
            model := "gemini-pro", maxOutputTokens := 1000, temperature := "0.7" } testPrompt
        = Except.ok "Hello from Vertex AI Gemini!"
      ∧ (initVertexAI envGood staleReadyState).result = Except.ok ()
      ∧ (initVertexAI envGood staleReadyState).state.initError = some "stale failure" :=
  ⟨rfl, rfl, rfl, rfl, rfl⟩

/-- Claim C4 (spec-modelled gateway): a request missing a required field
fails validation immediately — for every connection state, including Failed
ones — with no handshake and no state change. -/
theorem c4_validation_precedes_connection (env : ProcessEnv) (s : ConfigState)
    (req : OperationRequest) (h : missingRequired req = true) :
    invoke env s req
      = { outcome := InvokeOutcome.validationFailure, state := s, handshakes := 0 } := by
  unfold invoke
  simp [h]

/-- Witness for claim C4: the spec scenario — explain-kanji with an empty
`kanji` — against a Failed connection state: validation failure, no
handshake, state untouched. -/
theorem c4_validation_precedes_connection_witness :
    invoke envGood failedState emptyKanjiRequest
      = { outcome := InvokeOutcome.validationFailure, state := failedState, handshakes := 0 } :=
  c4_validation_precedes_connection envGood failedState emptyKanjiRequest (by decide)

/-- Claim C5, counterexample: on a not-yet-Ready state `checkPermissions`
does not raise — its catch-all returns a value with `hasPermissions = false`,
the not-initialized message, and the fixed suggestion list, refuting the
claimed fail-with-NotReadyError behaviour for non-denial errors. -/
theorem c5_check_permissions_counterexample :
    checkPermissions envGood (mkVertexAIConfig envGood)
      = Except.ok
          { hasPermissions := false,
            error := some "Vertex AI not initialized. Call initialize() first.",
            suggestions := permissionSuggestions } :=
  rfl

/-- Claim C5, amended: `checkPermissions` never raises. A denied diagnostic
call on a Ready connection returns `hasPermissions = false` with the fixed
suggestions (second conjunct, as claimed); any other error — in particular a
not-yet-Ready connection (first conjunct) — is also returned as
`hasPermissions = false` with the same fixed suggestions rather than raised;
a granted call returns `hasPermissions = true` (third conjunct). -/
theorem c5_check_permissions_amended (env : ProcessEnv) (s : ConfigState) :
    (∀ m, getModel s = Except.error m →
        checkPermissions env s
          = Except.ok { hasPermissions := false, error := some m,
                        suggestions := permissionSuggestions })
      ∧ (∀ mdl m, getModel s = Except.ok mdl →
            env.generate mdl "Test permissions" = Except.error m →
            checkPermissions env s
              = Except.ok { hasPermissions := false, error := some m,
                            suggestions := permissionSuggestions })
      ∧ (∀ mdl t, getModel s = Except.ok mdl →
            env.generate mdl "Test permissions" = Except.ok t →
            checkPermissions env s
              = Except.ok { hasPermissions := true, error := none, suggestions := [] }) := by
  refine ⟨?_, ?_, ?_⟩
  · intro m hm
    unfold checkPermissions
    rw [hm]
  · intro mdl m h1 h2
    unfold checkPermissions
    simp [h1, h2]
  · intro mdl t h1 h2
    unfold checkPermissions
    simp [h1, h2]

/-- Witness for the amended claim C5 at a concrete input: a Failed state. -/
theorem c5_check_permissions_witness :
    checkPermissions envGood failedState
      = Except.ok
          { hasPermissions := false,
            error := some "Vertex AI not initialized. Call initialize() first.",
            suggestions := permissionSuggestions } :=
  (c5_check_permissions_amended envGood failedState).1
    "Vertex AI not initialized. Call initialize() first." rfl

/-- Claim C6, code bug: the retry half of the claim holds — after a failed
attempt the next `ensureVertexAI` call does start a new handshake (no
lockout) — but even with the configuration corrected (`envGood`: credentials
file present, remote calls succeeding) the state never transitions to Ready,
because `initialize()` always fails in `testConnection` (`getModel` requires
the not-yet-set `isInitialized`). -/
theorem c6_recovery_code_bug :
    (ensureVertexAI envMissingFile (mkVertexAIConfig envMissingFile)).handshakes = 1
      ∧ (ensureVertexAI envMissingFile (mkVertexAIConfig envMissingFile)).state.isInitialized
        = false
      ∧ (ensureVertexAI envGood failedState).handshakes = 1
      ∧ (ensureVertexAI envGood failedState).state.isInitialized = false
      ∧ ¬ (ensureVertexAI envGood failedState).outcome = MiddlewareOutcome.next := by
  refine ⟨rfl, rfl, rfl, rfl, ?_⟩
  decide

/-- Claim C7: with the credentials variable set to a path whose resolved file
does not exist, `initialize()` fails with a message naming the resolved path
and records it, while the constructor (configuration load) has already
succeeded with no error recorded — the failure is raised at initialization
time, not at load time. -/
theorem c7_missing_credentials_file (env : ProcessEnv) (p : String)
    (hp : env.googleApplicationCredentials = some p) (hne : ¬ p = "")
    (hmiss : env.fileExists (env.resolve p) = false) :
    (initVertexAI env (mkVertexAIConfig env)).result
        = Except.error ("Service account file not found: " ++ env.resolve p)
      ∧ (initVertexAI env (mkVertexAIConfig env)).state.initError
        = some ("Service account file not found: " ++ env.resolve p)
      ∧ (initVertexAI env (mkVertexAIConfig env)).state.isInitialized = false
      ∧ (mkVertexAIConfig env).initError = none
      ∧ (mkVertexAIConfig env).isInitialized = false := by
  unfold initVertexAI
  rw [hp]
  simp [hne, hmiss, mkVertexAIConfig]

/-- Witness for claim C7 at the concrete environment with the file absent. -/
theorem c7_missing_credentials_file_witness :
    (initVertexAI envMissingFile (mkVertexAIConfig envMissingFile)).result
        = Except.error
            ("Service account file not found: " ++ envMissingFile.resolve "service-account.json")
      ∧ (initVertexAI envMissingFile (mkVertexAIConfig envMissingFile)).state.initError
        = some ("Service account file not found: " ++ envMissingFile.resolve "service-account.json")
      ∧ (initVertexAI envMissingFile (mkVertexAIConfig envMissingFile)).state.isInitialized = false
      ∧ (mkVertexAIConfig envMissingFile).initError = none
      ∧ (mkVertexAIConfig envMissingFile).isInitialized = false :=
  c7_missing_credentials_file envMissingFile "service-account.json" rfl (by decide) rfl

/-- Claim C8: once the initialized flag is set, `ensureVertexAI` passes
control on immediately, leaves the state untouched, and performs no
handshake. -/
theorem c8_ready_idempotent (env : ProcessEnv) (s : ConfigState)
    (h : s.isInitialized = true) :
    ensureVertexAI env s
      = { outcome := MiddlewareOutcome.next, state := s, handshakes := 0 } := by
  unfold ensureVertexAI
  simp [h]

/-- Witness for claim C8 at a concrete Ready-shaped state. -/
theorem c8_ready_idempotent_witness :
    ensureVertexAI envGood readyState
      = { outcome := MiddlewareOutcome.next, state := readyState, handshakes := 0 } :=
  c8_ready_idempotent envGood readyState rfl

/-- Claim C9: `getStatus` is a pure total read (by its type it neither throws
nor mutates), and on the just-constructed state it reports
`initialized = false`, a null error message, and the configuration view. -/
theorem c9_status_on_initial_state (env : ProcessEnv) :
    getStatus (mkVertexAIConfig env)
      = { initialized := false
          error := none
          config :=
            { projectId := env.googleCloudProjectId.getD "dark-pipe-465302-g3"
              location := env.googleCloudLocation.getD "us-central1"
              model := env.vertexAiModel.getD "gemini-pro"
              maxTokens := match env.vertexAiMaxTokens with
                | some n => if n = 0 then 1000 else n
                | none => 1000
              temperature := env.vertexAiTemperature.getD "0.7" } } :=
  rfl

/-- Claim C10: the boundary error handler is a total function producing one
response, and its substring reclassifications are applied in source order
with the rate-limit check last — so an error whose message contains both
`Vertex AI` and `Too many requests` is answered with status 429, not 503. -/
theorem c10_rate_limit_classification_wins (err : JsError) (resStatusCode : Nat)
    (_hv : messageIncludes err.message "Vertex AI" = true)
    (ht : messageIncludes err.message "Too many requests" = true) :
    errorHandler err resStatusCode
      = { status := 429, error := some "Too many requests, please try again later" } := by
  unfold errorHandler
  simp [ht]

/-- Witness for claim C10: a message containing both substrings yields 429. -/
theorem c10_rate_limit_classification_wins_witness :
    errorHandler bothSubstringsError 200
      = { status := 429, error := some "Too many requests, please try again later" } :=
  c10_rate_limit_classification_wins bothSubstringsError 200 (by decide) (by decide)

/-- Claim C1, counterexample: two concurrent `ensureVertexAI` calls issued
while the state is Uninitialized, interleaved at the one `await` suspension
point of the initialization path (schedule caller 0, caller 1, caller 0,
caller 1) against a healthy environment, perform two underlying handshakes —
not exactly one. The guard is a plain boolean that is still false when the
second caller checks it, and there is no Initializing state to await. -/
theorem c1_single_flight_counterexample :
    (run envGood (freshSys envGood 2) [0, 1, 0, 1]).handshakes = 2
      ∧ ¬ (run envGood (freshSys envGood 2) [0, 1, 0, 1]).handshakes = 1 := by
  constructor
  · rfl
  · decide

/-- Claim C1, amended: a single sequential `ensureVertexAI` call from
Uninitialized performs exactly one handshake, but each concurrent caller that
observes a false `isInitialized` flag starts its own handshake — two fully
interleaved callers perform two (N callers would perform N) — because the
code has no Initializing state for a second caller to await. In this run
both callers do still receive the same outcome (last conjunct). -/
theorem c1_single_flight_amended (env : ProcessEnv) (p : String)
    (hp : env.googleApplicationCredentials = some p) (hne : ¬ p = "")
    (hex : env.fileExists (env.resolve p) = true) :
    (run env (freshSys env 1) [0, 0]).handshakes = 1
      ∧ (run env (freshSys env 2) [0, 1, 0, 1]).handshakes = 2
      ∧ (run env (freshSys env 2) [0, 1, 0, 1]).callers.get? 0
          = (run env (freshSys env 2) [0, 1, 0, 1]).callers.get? 1 := by
  refine ⟨?_, ?_, ?_⟩ <;>
    simp [run, freshSys, step, setAt, mkVertexAIConfig, testConnection, getModel,
          hp, hne, hex, List.foldl]

/-- Witness for the amended claim C1 at the concrete healthy environment. -/
theorem c1_single_flight_witness :
    (run envGood (freshSys envGood 1) [0, 0]).handshakes = 1
      ∧ (run envGood (freshSys envGood 2) [0, 1, 0, 1]).handshakes = 2
      ∧ (run envGood (freshSys envGood 2) [0, 1, 0, 1]).callers.get? 0
          = (run envGood (freshSys envGood 2) [0, 1, 0, 1]).callers.get? 1 :=
  c1_single_flight_amended envGood "service-account.json" rfl (by decide) rfl
